import Mathlib

/-!
Shallow embedding of the dental-clinic backend (`main.py`): the three
HTTP handlers `register_user`, `login_user` and `book_appointment`, the
row store they read and write, the `bcrypt`-based credential helpers,
and the date/time parsing performed by
`datetime.datetime.strptime(s, "%Y-%m-%d %H:%M")`.

External collaborators are made explicit parameters:
  * the supabase row store becomes an explicit `Store` value threaded
    through each handler, with each `insert`'s success (whether the
    store reports an inserted row) a `Bool` parameter;
  * the Google-calendar step of `book_appointment` is summarised by its
    only observable outcome, the `google_event_id : Option String` that
    the handler ends up with (`none` when the service is unavailable or
    the event insert raised, `some id` when `event.get("id")` returned
    `id`);
  * bcrypt's digest comparison on a parseable hash is an oracle
    `digestEq : String → String → Bool`, while its behaviour of raising
    `ValueError("Invalid salt")` exactly when the stored hash's salt
    prefix fails to parse is modelled explicitly.
-/

namespace Dentist

/-- Outcome of a handler at the HTTP boundary: either a successful JSON
value or an `HTTPException`-style error carrying a status code and a
detail string. -/
inductive HandlerResult (α : Type) where
  | ok (value : α)
  | error (statusCode : Nat) (detail : String)
  deriving DecidableEq, Repr

/-- The Python exceptions the handlers' `try/except` chains distinguish:
an `HTTPException` raised on purpose, a `ValueError`, and any other
exception (carrying `str(e)`). -/
inductive PyExn where
  | http (statusCode : Nat) (detail : String)
  | valueError (msg : String)
  | otherError (msg : String)
  deriving DecidableEq, Repr

/-! ## `strptime("%Y-%m-%d %H:%M")`

CPython's `_strptime` compiles the format into an anchored regex built
from ordered alternations (`%Y` ↦ `\d\d\d\d`, `%m` ↦ `1[0-2]|0[1-9]|[1-9]`,
`%d` ↦ `3[01]|[12]\d|0[1-9]|[1-9]`, `%H` ↦ `2[0-3]|[0-1]\d|\d`,
`%M` ↦ `[0-5]\d|\d`, a whitespace run for the literal space) and then
rejects trailing unconverted data; the `datetime` constructor afterwards
checks `1 ≤ year` and that the day fits the month.  Each alternation is
rendered below as an ordered first-match parser on the character list;
for this format the two-character branch of every alternation is
followed by a non-digit literal, so first-match parsing coincides with
the regex's backtracking search. -/

/-- Numeric value of a decimal digit character. -/
def digitVal (c : Char) : Nat := c.toNat - 48

/-- `%Y`: exactly four decimal digits. -/
def parse4Digits : List Char → Option (Nat × List Char)
  | a :: b :: c :: d :: rest =>
    if a.isDigit && b.isDigit && c.isDigit && d.isDigit then
      some (digitVal a * 1000 + digitVal b * 100 + digitVal c * 10 + digitVal d, rest)
    else none
  | _ => none

/-- `%m`: `1[0-2]|0[1-9]|[1-9]`, first match wins. -/
def parseMonth : List Char → Option (Nat × List Char)
  | [] => none
  | c :: rest =>
    match c, rest with
    | '1', b :: rest2 =>
      if b == '0' || b == '1' || b == '2' then some (10 + digitVal b, rest2)
      else some (1, rest)
    | '0', b :: rest2 =>
      if '1' ≤ b && b ≤ '9' then some (digitVal b, rest2) else none
    | c, _ =>
      if '1' ≤ c && c ≤ '9' then some (digitVal c, rest) else none

/-- `%d`: `3[01]|[12]\d|0[1-9]|[1-9]`, first match wins. -/
def parseDay : List Char → Option (Nat × List Char)
  | [] => none
  | c :: rest =>
    match c, rest with
    | '3', b :: rest2 =>
      if b == '0' || b == '1' then some (30 + digitVal b, rest2) else some (3, rest)
    | '1', b :: rest2 =>
      if b.isDigit then some (10 + digitVal b, rest2) else some (1, rest)
    | '2', b :: rest2 =>
      if b.isDigit then some (20 + digitVal b, rest2) else some (2, rest)
    | '0', b :: rest2 =>
      if '1' ≤ b && b ≤ '9' then some (digitVal b, rest2) else none
    | c, _ =>
      if '1' ≤ c && c ≤ '9' then some (digitVal c, rest) else none

/-- `%H`: `2[0-3]|[0-1]\d|\d`, first match wins. -/
def parseHour : List Char → Option (Nat × List Char)
  | [] => none
  | c :: rest =>
    match c, rest with
    | '2', b :: rest2 =>
      if '0' ≤ b && b ≤ '3' then some (20 + digitVal b, rest2) else some (2, rest)
    | '0', b :: rest2 =>
      if b.isDigit then some (digitVal b, rest2) else some (0, rest)
    | '1', b :: rest2 =>
      if b.isDigit then some (10 + digitVal b, rest2) else some (1, rest)
    | c, _ =>
      if c.isDigit then some (digitVal c, rest) else none

/-- `%M`: `[0-5]\d|\d`, first match wins. -/
def parseMinute : List Char → Option (Nat × List Char)
  | [] => none
  | [c] => if c.isDigit then some (digitVal c, []) else none
  | c :: b :: rest2 =>
    if ('0' ≤ c && c ≤ '5') && b.isDigit then
      some (digitVal c * 10 + digitVal b, rest2)
    else if c.isDigit then some (digitVal c, b :: rest2)
    else none

/-- A literal character of the format string. -/
def parseLit (ch : Char) : List Char → Option (List Char)
  | c :: rest => if c == ch then some rest else none
  | [] => none

/-- The format's literal space, which `_strptime` turns into a
whitespace run `\s+` (one or more whitespace characters). -/
def parseWs : List Char → Option (List Char)
  | c :: rest =>
    if c.isWhitespace then some (rest.dropWhile Char.isWhitespace) else none
  | [] => none

/-- Length of a month, as checked by the `datetime` constructor. -/
def daysInMonth (y m : Nat) : Nat :=
  if m == 2 then
    if (y % 4 == 0 && y % 100 != 0) || y % 400 == 0 then 29 else 28
  else if m == 4 || m == 6 || m == 9 || m == 11 then 30
  else 31

/-- The naive datetime produced by a successful parse. -/
structure DateTimeVal where
  year : Nat
  month : Nat
  day : Nat
  hour : Nat
  minute : Nat
  deriving DecidableEq, Repr

/-- `datetime.datetime.strptime(s, "%Y-%m-%d %H:%M")`: match the whole
string against the compiled pattern, then apply the `datetime`
constructor's checks (`MINYEAR = 1`, day within the month).  Returns
`none` exactly when CPython raises `ValueError`. -/
def strptimeYmdHM (s : String) : Option DateTimeVal := do
  let (y, r1) ← parse4Digits s.data
  let r2 ← parseLit '-' r1
  let (m, r3) ← parseMonth r2
  let r4 ← parseLit '-' r3
  let (d, r5) ← parseDay r4
  let r6 ← parseWs r5
  let (h, r7) ← parseHour r6
  let r8 ← parseLit ':' r7
  let (mi, r9) ← parseMinute r8
  if r9.isEmpty && 1 ≤ y && d ≤ daysInMonth y m then
    some ⟨y, m, d, h, mi⟩
  else none

/-- Render a number on two digits, as `strftime`'s `%H`/`%M` do. -/
def pad2 (n : Nat) : String := if n < 10 then "0" ++ toString n else toString n

/-- `(start_dt + timedelta(hours=1)).strftime("%H:%M")`: the wall-clock
time one hour after the parsed start (Asia/Kolkata has a fixed UTC+05:30
offset, so pytz arithmetic never shifts the wall clock), wrapping past
midnight. -/
def nextSlotHM (dt : DateTimeVal) : String :=
  let t := (dt.hour * 60 + dt.minute + 60) % 1440
  pad2 (t / 60) ++ ":" ++ pad2 (t % 60)

/-! ## Data model -/

/-- A row of the `users` table.  The store assigns the row identifier;
it is modelled as the row count at insertion time. -/
structure UserRow where
  id : Nat
  full_name : String
  email : String
  phone_number : String
  age : Option Int
  password_hash : String
  deriving DecidableEq, Repr

/-- A row of the `appointments` table. -/
structure ApptRow where
  full_name : String
  phone_number : String
  appointment_date : String
  appointment_time : String
  service : String
  google_event_id : Option String
  status : String
  deriving DecidableEq, Repr

/-- The state of the external supabase store: its two tables. -/
structure Store where
  users : List UserRow
  appointments : List ApptRow
  deriving DecidableEq, Repr

/-- Request body of `POST /register` (the `UserRegister` model). -/
structure UserRegister where
  full_name : String
  email : String
  phone_number : String
  password : String
  age : Option Int
  deriving DecidableEq, Repr

/-- Request body of `POST /login` (the `UserLogin` model). -/
structure UserLogin where
  email : String
  password : String
  deriving DecidableEq, Repr

/-- Request body of `POST /book-appointment` (the `AppointmentCreate`
model). -/
structure AppointmentCreate where
  full_name : String
  phone_number : String
  email : String
  appointment_date : String
  appointment_time : String
  service : String
  deriving DecidableEq, Repr

/-- Success body of `POST /register`. -/
structure RegisterResponse where
  message : String
  email : String
  deriving DecidableEq, Repr

/-- Success body of `POST /login`. -/
structure LoginResponse where
  message : String
  user_id : Nat
  email : String
  deriving DecidableEq, Repr

/-- Success body of `POST /book-appointment`. -/
structure BookResponse where
  message : String
  google_event_link : Option String
  deriving DecidableEq, Repr

/-! ## bcrypt model -/

/-- The bcrypt base64 alphabet `./A-Za-z0-9` used for salt characters. -/
def isBcryptB64 (c : Char) : Bool :=
  c == '.' || c == '/' || c.isAlpha || c.isDigit

/-- Whether `bcrypt.hashpw` can parse the stored hash as a salt,
following `bcrypt_hashpass` in the OpenBSD C code bundled with the
pyca bcrypt package: a `$2a$` or `$2b$` prefix, a two-digit cost in
04–31, a `$`, and at least 22 further characters of which the first 22
(the salt proper) are in the bcrypt base64 alphabet.  Everything after
the 22 salt characters is ignored by the parser, so a bare 29-character
salt or a truncated hash still parses. -/
def bcryptSaltParses (h : String) : Bool :=
  match h.data with
  | '$' :: '2' :: minor :: '$' :: d1 :: d2 :: '$' :: rest =>
    (minor == 'a' || minor == 'b') && d1.isDigit && d2.isDigit &&
    (let cost := digitVal d1 * 10 + digitVal d2
     decide (4 ≤ cost) && decide (cost ≤ 31)) &&
    decide (rest.length ≥ 22) && (rest.take 22).all isBcryptB64
  | _ => false

/-- Model of the external `bcrypt.checkpw`: it hands the stored hash to
`hashpw` as the salt, which raises `ValueError("Invalid salt")` exactly
when the salt prefix fails to parse; otherwise the digest is computed
and compared, an outcome abstracted by the oracle `digestEq` (inputs
containing NUL bytes, which raise a different `ValueError`, are outside
the model). -/
def bcryptCheckpw (digestEq : String → String → Bool) (password hash : String) :
    Except PyExn Bool :=
  if bcryptSaltParses hash then .ok (digestEq password hash)
  else .error (.valueError "Invalid salt")

/-- `verify_password` from `main.py`: delegates directly to
`bcrypt.checkpw` (utf-8 encoding of a Lean string never fails, so it is
elided). -/
def verify_password (digestEq : String → String → Bool)
    (plain_password hashed_password : String) : Except PyExn Bool :=
  bcryptCheckpw digestEq plain_password hashed_password

/-! ## Exception boundaries

Each handler wraps its body in a `try/except` chain; these functions
are the direct translations of those chains. -/

/-- `register_user`'s boundary: `except ValueError` maps to a 400 with
`str(e)`; `except Exception` re-raises an `HTTPException` unchanged and
maps anything else to a 500 with `str(e)` as the detail. -/
def registerBoundary {α : Type} : Except PyExn α → HandlerResult α
  | .ok v => .ok v
  | .error (.valueError m) => .error 400 m
  | .error (.http c d) => .error c d
  | .error (.otherError m) => .error 500 m

/-- `login_user`'s boundary: `except Exception` re-raises an
`HTTPException` unchanged and maps any other exception to a 500 with
`str(e)` as the detail. -/
def loginBoundary {α : Type} : Except PyExn α → HandlerResult α
  | .ok v => .ok v
  | .error (.http c d) => .error c d
  | .error (.valueError m) => .error 500 m
  | .error (.otherError m) => .error 500 m

/-- `book_appointment`'s boundary: `except HTTPException: raise`
re-raises unchanged; `except Exception` masks everything else behind a
generic 500 "Internal server error". -/
def bookBoundary {α : Type} : Except PyExn α → HandlerResult α
  | .ok v => .ok v
  | .error (.http c d) => .error c d
  | .error (.valueError _) => .error 500 "Internal server error"
  | .error (.otherError _) => .error 500 "Internal server error"

/-! ## `POST /register` -/

/-- The row inserted by `register_user` (the store assigns `id`). -/
def newUserRow (store : Store) (user : UserRegister) (hashed_pwd : String) : UserRow :=
  { id := store.users.length
    full_name := user.full_name
    email := user.email
    phone_number := user.phone_number
    age := user.age
    password_hash := hashed_pwd }

/-- Body of the `register_user` handler: look up the email with an
exact-equality `eq` filter, reject if any row comes back, otherwise insert
the new account (`hashed_pwd` is the `get_password_hash` output, opaque
here; `insertOk` is whether the store reports an inserted row). -/
def registerBody (store : Store) (user : UserRegister) (hashed_pwd : String)
    (insertOk : Bool) : Except PyExn RegisterResponse × Store :=
  if (store.users.filter (fun r => r.email == user.email)).isEmpty then
    if insertOk then
      (.ok ⟨"User registered successfully", user.email⟩,
       { store with users := store.users ++ [newUserRow store user hashed_pwd] })
    else
      (.error (.http 500 "Failed to register user"), store)
  else
    (.error (.http 400 "Email already registered"), store)

/-- The `register_user` handler: body plus exception boundary. -/
def register_user (store : Store) (user : UserRegister) (hashed_pwd : String)
    (insertOk : Bool) : HandlerResult RegisterResponse × Store :=
  let (r, s) := registerBody store user hashed_pwd insertOk
  (registerBoundary r, s)

/-! ## `POST /login` -/

/-- Body of the `login_user` handler: fetch rows whose email equals the
submitted one, 401 if none, otherwise verify the password against the
first row's stored hash (401 on mismatch; a `ValueError` from bcrypt
propagates to the boundary). -/
def loginBody (store : Store) (user : UserLogin)
    (digestEq : String → String → Bool) : Except PyExn LoginResponse :=
  match store.users.filter (fun r => r.email == user.email) with
  | [] => .error (.http 401 "Invalid email or password")
  | user_record :: _ =>
    match verify_password digestEq user.password user_record.password_hash with
    | .error e => .error e
    | .ok false => .error (.http 401 "Invalid email or password")
    | .ok true => .ok ⟨"Login successful", user_record.id, user_record.email⟩

/-- The `login_user` handler: body plus exception boundary.  It never
writes to the store. -/
def login_user (store : Store) (user : UserLogin)
    (digestEq : String → String → Bool) : HandlerResult LoginResponse :=
  loginBoundary (loginBody store user digestEq)

/-! ## `POST /book-appointment` -/

/-- The combined string `f"{appointment_date} {appointment_time}"`
handed to `strptime`. -/
def combinedDateTime (appt : AppointmentCreate) : String :=
  appt.appointment_date ++ " " ++ appt.appointment_time

/-- The conflict-check filter of `book_appointment`: same
`appointment_date` string, same `appointment_time` string, status not
`cancelled` — all exact string comparisons. -/
def isConflicting (appt : AppointmentCreate) (r : ApptRow) : Bool :=
  r.appointment_date == appt.appointment_date &&
  r.appointment_time == appt.appointment_time &&
  r.status != "cancelled"

/-- Rows returned by the conflict-check query. -/
def conflictRows (store : Store) (appt : AppointmentCreate) : List ApptRow :=
  store.appointments.filter (isConflicting appt)

/-- The message of the conflict `HTTPException`. -/
def conflictMsg (requested suggestion : String) : String :=
  "Time slot " ++ requested ++ " is already booked. Please try " ++
    suggestion ++ " or another time."

/-- Python truthiness of the `google_event_id` variable: `None` and the
empty string are falsy. -/
def pyTruthy : Option String → Bool
  | none => false
  | some s => !s.isEmpty

/-- The appointment row inserted by `book_appointment`: status
`confirmed` exactly when `google_event_id` is truthy, `pending`
otherwise, and the event id stored as-is. -/
def mkApptRow (appt : AppointmentCreate) (google_event_id : Option String) : ApptRow :=
  { full_name := appt.full_name
    phone_number := appt.phone_number
    appointment_date := appt.appointment_date
    appointment_time := appt.appointment_time
    service := appt.service
    google_event_id := google_event_id
    status := if pyTruthy google_event_id then "confirmed" else "pending" }

/-- The `google_event_link` field of the response: a constructed URL
when `google_event_id` is truthy, `None` otherwise. -/
def eventLink : Option String → Option String
  | none => none
  | some s =>
    if s.isEmpty then none
    else some ("https://www.google.com/calendar/event?eid=" ++ s)

/-- `book_appointment` after a successful parse: conflict check against
the store, then (the calendar step having produced `google_event_id`)
the insert, the 500 when the store reports no row, and the response. -/
def bookAfterParse (store : Store) (appt : AppointmentCreate)
    (google_event_id : Option String) (insertOk : Bool) (start_dt : DateTimeVal) :
    Except PyExn BookResponse × Store :=
  if conflictRows store appt = [] then
    if insertOk then
      (.ok ⟨"Appointment booked successfully", eventLink google_event_id⟩,
       { store with
          appointments := store.appointments ++ [mkApptRow appt google_event_id] })
    else
      (.error (.http 500 "Failed to save appointment"), store)
  else
    (.error (.http 400 (conflictMsg appt.appointment_time (nextSlotHM start_dt))),
     store)

/-- Body of the `book_appointment` handler: parse the combined
date-time string (400 on failure, raised before any store or calendar
call), then proceed. -/
def bookBody (store : Store) (appt : AppointmentCreate)
    (google_event_id : Option String) (insertOk : Bool) :
    Except PyExn BookResponse × Store :=
  match strptimeYmdHM (combinedDateTime appt) with
  | none => (.error (.http 400 "Invalid date or time format"), store)
  | some start_dt => bookAfterParse store appt google_event_id insertOk start_dt

/-- The `book_appointment` handler: body plus exception boundary. -/
def book_appointment (store : Store) (appt : AppointmentCreate)
    (google_event_id : Option String) (insertOk : Bool) :
    HandlerResult BookResponse × Store :=
  let (r, s) := bookBody store appt google_event_id insertOk
  (bookBoundary r, s)

/-! ## Shared lemmas -/

/-- If no stored appointment matches the request's key, the conflict
query returns no rows. -/
theorem conflictRows_eq_nil (store : Store) (appt : AppointmentCreate)
    (h : ∀ r ∈ store.appointments, isConflicting appt r = false) :
    conflictRows store appt = [] := by
  refine List.filter_eq_nil_iff.mpr ?_
  intro a ha
  simp [h a ha]

/-- A successful booking: with a parsed date-time, an empty conflict
query and a store that reports the inserted row, `book_appointment`
returns the success message with the event link and appends exactly the
constructed row. -/
theorem book_success (store : Store) (appt : AppointmentCreate)
    (gid : Option String) (dt : DateTimeVal)
    (hparse : strptimeYmdHM (combinedDateTime appt) = some dt)
    (hnil : conflictRows store appt = []) :
    book_appointment store appt gid true =
      (.ok ⟨"Appointment booked successfully", eventLink gid⟩,
       { store with appointments := store.appointments ++ [mkApptRow appt gid] }) := by
  simp [book_appointment, bookBody, hparse, bookAfterParse, hnil, bookBoundary]

/-- A `head?` that yields an element decomposes the filtered list. -/
theorem filter_head_cons {l : List UserRow} {p : UserRow → Bool} {r : UserRow}
    (h : (l.filter p).head? = some r) : ∃ t, l.filter p = r :: t := by
  cases hfl : l.filter p with
  | nil => rw [hfl] at h; simp at h
  | cons a t =>
    rw [hfl] at h
    simp only [List.head?_cons, Option.some.injEq] at h
    exact ⟨t, by rw [h]⟩

/-- If no stored account has the given email, the registration lookup
returns no rows. -/
theorem usersFilter_eq_nil (users : List UserRow) (e : String)
    (h : ∀ r ∈ users, r.email ≠ e) :
    users.filter (fun r => r.email == e) = [] := by
  refine List.filter_eq_nil_iff.mpr ?_
  intro a ha
  simp [h a ha]

/-! ## Sample data for witnesses and counterexamples -/

/-- A store with no rows at all. -/
def emptyStore : Store := ⟨[], []⟩

/-- A booking request for the 2026-03-10 10:00 slot. -/
def slotAppt : AppointmentCreate :=
  ⟨"John Roe", "9876543210", "john@x.com", "2026-03-10", "10:00", "Cleaning"⟩

/-- The pending row persisted for `slotAppt` when the calendar step
yielded nothing. -/
def slotRow : ApptRow := mkApptRow slotAppt none

/-- A store already holding the pending 2026-03-10 10:00 appointment. -/
def demoStore : Store := ⟨[], [slotRow]⟩

/-- A booking request whose time string does not parse. -/
def badAppt : AppointmentCreate :=
  ⟨"John Roe", "9876543210", "john@x.com", "2026-03-10", "25:99", "Cleaning"⟩

/-- A booking request for the same instant as `slotAppt` spelled with a
non-zero-padded month. -/
def unpaddedAppt : AppointmentCreate :=
  ⟨"Mary Poe", "9123456780", "mary@x.com", "2026-3-10", "10:00", "Filling"⟩

/-- A well-formed bcrypt hash: `$2b$12$`, a 22-character salt and a
31-character digest (60 characters in all). -/
def demoHash : String :=
  "$2b$12$abcdefghijklmnopqrstuvABCDEFGHIJKLMNOPQRSTUVWXYZabcde"

/-- A stored account whose email has an upper-case local part. -/
def janeRow : UserRow := ⟨1, "Jane Doe", "Jane@x.com", "9876543210", none, demoHash⟩

/-- A store holding only `janeRow`. -/
def caseStore : Store := ⟨[janeRow], []⟩

/-- A registration for the same address as `janeRow` spelled in lower
case. -/
def janeLower : UserRegister :=
  ⟨"Jane Doe", "jane@x.com", "9876543210", "secret1", none⟩

/-- A stored account with a well-formed bcrypt hash. -/
def janeGoodRow : UserRow := ⟨1, "Jane Doe", "jane@x.com", "9876543210", none, demoHash⟩

/-- A store holding only `janeGoodRow`. -/
def authStore : Store := ⟨[janeGoodRow], []⟩

/-- A stored account whose password hash is not in bcrypt format. -/
def badHashRow : UserRow :=
  ⟨1, "Jane Doe", "jane@x.com", "9876543210", none, "not-a-bcrypt-hash"⟩

/-- A store holding only `badHashRow`. -/
def badHashStore : Store := ⟨[badHashRow], []⟩

/-- C1: for every (appointment_date, appointment_time) pair (one that
parses, as every bookable pair does), if at least one appointment row
with that exact pair and status not equal to `cancelled` exists in the
store, then `book` with the same pair fails with a 400 `ConflictError`
whose message names the requested time and suggests the time one hour
after the requested start (`nextSlotHM`), and no new appointment row is
inserted. -/
theorem C1_existing_slot_conflicts (store : Store) (appt : AppointmentCreate)
    (gid : Option String) (insertOk : Bool) (dt : DateTimeVal)
    (hparse : strptimeYmdHM (combinedDateTime appt) = some dt)
    (hconf : ∃ r ∈ store.appointments, isConflicting appt r = true) :
    book_appointment store appt gid insertOk =
      (.error 400 (conflictMsg appt.appointment_time (nextSlotHM dt)), store) := by
  obtain ⟨r, hr, hcr⟩ := hconf
  have hne : conflictRows store appt ≠ [] := by
    intro hnil
    have := List.filter_eq_nil_iff.mp hnil r hr
    simp [hcr] at this
  simp [book_appointment, bookBody, hparse, bookAfterParse, hne, bookBoundary]

/-- Witness for C1: with the pending 2026-03-10 10:00 row in the store,
booking 10:00 again yields the conflict message suggesting 11:00, and
the store is unchanged. -/
theorem C1_witness :
    nextSlotHM ⟨2026, 3, 10, 10, 0⟩ = "11:00" ∧
    conflictMsg "10:00" "11:00" =
      "Time slot 10:00 is already booked. Please try 11:00 or another time." ∧
    book_appointment demoStore slotAppt none true =
      (.error 400 (conflictMsg slotAppt.appointment_time (nextSlotHM ⟨2026, 3, 10, 10, 0⟩)),
       demoStore) :=
  ⟨by decide, by decide,
   C1_existing_slot_conflicts demoStore slotAppt none true ⟨2026, 3, 10, 10, 0⟩
     (by decide) ⟨slotRow, by decide, by decide⟩⟩

/-- C2: for every valid, non-conflicting booking request, if the
calendar step produced no event reference (service unavailable or the
event insert raised — both leave `google_event_id = None`), `book`
still succeeds with no link, the persisted row has status `pending` and
a null event reference, and no error from the calendar reaches the
caller. -/
theorem C2_calendar_failure_isolated (store : Store) (appt : AppointmentCreate)
    (dt : DateTimeVal)
    (hparse : strptimeYmdHM (combinedDateTime appt) = some dt)
    (hnoconf : ∀ r ∈ store.appointments, isConflicting appt r = false) :
    book_appointment store appt none true =
      (.ok ⟨"Appointment booked successfully", none⟩,
       { store with appointments := store.appointments ++ [mkApptRow appt none] }) ∧
    (mkApptRow appt none).status = "pending" ∧
    (mkApptRow appt none).google_event_id = none := by
  refine ⟨?_, rfl, rfl⟩
  have := book_success store appt none dt hparse (conflictRows_eq_nil store appt hnoconf)
  simpa [eventLink] using this

/-- Witness for C2: on the empty store, booking with a failed calendar
step succeeds, returns no link, and persists a pending row with no
event id. -/
theorem C2_witness :
    book_appointment emptyStore slotAppt none true =
      (.ok ⟨"Appointment booked successfully", none⟩,
       { emptyStore with appointments := emptyStore.appointments ++ [mkApptRow slotAppt none] }) ∧
    (mkApptRow slotAppt none).status = "pending" ∧
    (mkApptRow slotAppt none).google_event_id = none :=
  C2_calendar_failure_isolated emptyStore slotAppt ⟨2026, 3, 10, 10, 0⟩
    (by decide) (by intro r hr; simp [emptyStore] at hr)

/-- C3: for every successful `book` call (parseable pair, no conflict,
calendar outcome `gid` — never the empty string, which the calendar
does not produce), the persisted row has status `confirmed` iff an
event reference was obtained, stores exactly that reference (null
otherwise), and the response carries the constructed link iff the
reference exists; and when the store reports no inserted row, `book`
fails with a 500 `PersistenceError`. -/
theorem C3_persist_reflects_calendar (store : Store) (appt : AppointmentCreate)
    (gid : Option String) (insertOk : Bool) (dt : DateTimeVal)
    (hparse : strptimeYmdHM (combinedDateTime appt) = some dt)
    (hnoconf : ∀ r ∈ store.appointments, isConflicting appt r = false)
    (hgid : gid ≠ some "") :
    (insertOk = true →
      book_appointment store appt gid insertOk =
        (.ok ⟨"Appointment booked successfully",
              gid.map (fun s => "https://www.google.com/calendar/event?eid=" ++ s)⟩,
         { store with appointments := store.appointments ++ [mkApptRow appt gid] }) ∧
      ((mkApptRow appt gid).status = "confirmed" ↔ gid.isSome = true) ∧
      (mkApptRow appt gid).google_event_id = gid ∧
      (gid.map (fun s => "https://www.google.com/calendar/event?eid=" ++ s)).isSome
        = gid.isSome) ∧
    (insertOk = false →
      book_appointment store appt gid insertOk =
        (.error 500 "Failed to save appointment", store)) := by
  have hnil : conflictRows store appt = [] := conflictRows_eq_nil store appt hnoconf
  have hlink : eventLink gid =
      gid.map (fun s => "https://www.google.com/calendar/event?eid=" ++ s) := by
    cases gid with
    | none => rfl
    | some s =>
      have hs : s ≠ "" := by intro h; exact hgid (by rw [h])
      have hemp : s.isEmpty = false := by
        cases hic : s.isEmpty
        · rfl
        · exact absurd ((String.isEmpty_iff s).mp hic) hs
      simp [eventLink, hemp]
  have htruthy : pyTruthy gid = gid.isSome := by
    cases gid with
    | none => rfl
    | some s =>
      have hs : s ≠ "" := by intro h; exact hgid (by rw [h])
      have hemp : s.isEmpty = false := by
        cases hic : s.isEmpty
        · rfl
        · exact absurd ((String.isEmpty_iff s).mp hic) hs
      simp [pyTruthy, hemp]
  constructor
  · intro hins
    subst hins
    refine ⟨?_, ?_, rfl, ?_⟩
    · have := book_success store appt gid dt hparse hnil
      rw [hlink] at this
      exact this
    · simp [mkApptRow, htruthy]
      cases gid <;> simp
    · cases gid <;> simp
  · intro hins
    subst hins
    simp [book_appointment, bookBody, hparse, bookAfterParse, hnil, bookBoundary]

/-- Witness for C3: with an obtained event id `evt123` the persisted
row is `confirmed` and the response links to the event; with the same
request and the store refusing the insert, the call fails with the 500
persistence error. -/
theorem C3_witness :
    book_appointment emptyStore slotAppt (some "evt123") true =
      (.ok ⟨"Appointment booked successfully",
            some "https://www.google.com/calendar/event?eid=evt123"⟩,
       { emptyStore with
          appointments := emptyStore.appointments ++ [mkApptRow slotAppt (some "evt123")] }) ∧
    (mkApptRow slotAppt (some "evt123")).status = "confirmed" ∧
    book_appointment emptyStore slotAppt (some "evt123") false =
      (.error 500 "Failed to save appointment", emptyStore) := by
  have h := C3_persist_reflects_calendar emptyStore slotAppt (some "evt123") true
    ⟨2026, 3, 10, 10, 0⟩ (by decide) (by intro r hr; simp [emptyStore] at hr) (by decide)
  have h' := C3_persist_reflects_calendar emptyStore slotAppt (some "evt123") false
    ⟨2026, 3, 10, 10, 0⟩ (by decide) (by intro r hr; simp [emptyStore] at hr) (by decide)
  obtain ⟨h1, -⟩ := h
  obtain ⟨ha, hb, -, -⟩ := h1 rfl
  obtain ⟨-, h2⟩ := h'
  refine ⟨?_, hb.mpr rfl, h2 rfl⟩
  rw [ha]
  decide

/-- C4: for any email E, if an account with email E already exists in
the store, every `register` call with email E fails with a 400
`ConflictError` "Email already registered" regardless of the other
field values, and no new account row is inserted. -/
theorem C4_duplicate_email_rejected (store : Store) (user : UserRegister)
    (hashed_pwd : String) (insertOk : Bool)
    (h : ∃ r ∈ store.users, r.email = user.email) :
    register_user store user hashed_pwd insertOk =
      (.error 400 "Email already registered", store) := by
  obtain ⟨r, hr, he⟩ := h
  have hmem : r ∈ store.users.filter (fun q => q.email == user.email) :=
    List.mem_filter.mpr ⟨hr, by simp [he]⟩
  have hne : (store.users.filter (fun q => q.email == user.email)).isEmpty = false :=
    List.isEmpty_eq_false.mpr (List.ne_nil_of_mem hmem)
  simp [register_user, registerBody, hne, registerBoundary]

/-- Witness for C4: with `janeRow` stored, registering its exact email
again with entirely different other fields is rejected and the store
is unchanged. -/
theorem C4_witness :
    (∃ r ∈ caseStore.users, r.email = "Jane@x.com") ∧
    register_user caseStore ⟨"Someone Else", "Jane@x.com", "1112223334", "hunter22", some 44⟩
        "otherhash" true =
      (.error 400 "Email already registered", caseStore) :=
  ⟨⟨janeRow, by decide, by decide⟩,
   C4_duplicate_email_rejected caseStore
     ⟨"Someone Else", "Jane@x.com", "1112223334", "hunter22", some 44⟩
     "otherhash" true ⟨janeRow, by decide, by decide⟩⟩

/-- Counterexample to C5: the store holds an account with email
`Jane@x.com`; registering `jane@x.com` — equal up to letter case —
succeeds and inserts a second row rather than failing with a
`ConflictError`, so two account rows equal up to case coexist. -/
theorem C5_counterexample :
    janeRow.email.data.map Char.toLower = janeLower.email.data.map Char.toLower ∧
    janeRow.email ≠ janeLower.email ∧
    janeRow ∈ caseStore.users ∧
    register_user caseStore janeLower "h2" true =
      (.ok ⟨"User registered successfully", "jane@x.com"⟩,
       ⟨[janeRow, newUserRow caseStore janeLower "h2"], []⟩) := by
  decide

/-- C5 (amended): email uniqueness is enforced by exact, case-sensitive
string equality — a `register` whose email differs as a string from
every stored email succeeds and inserts, even when it equals a stored
email up to letter case. -/
theorem C5_case_sensitive_uniqueness (store : Store) (user : UserRegister)
    (hashed_pwd : String)
    (h : ∀ r ∈ store.users, r.email ≠ user.email) :
    register_user store user hashed_pwd true =
      (.ok ⟨"User registered successfully", user.email⟩,
       { store with users := store.users ++ [newUserRow store user hashed_pwd] }) := by
  have hnil := usersFilter_eq_nil store.users user.email h
  simp [register_user, registerBody, hnil, registerBoundary]

/-- Witness for C5 (amended): `jane@x.com` differs as a string from the
stored `Jane@x.com`, so the registration goes through and both rows
coexist. -/
theorem C5_amended_witness :
    (∀ r ∈ caseStore.users, r.email ≠ janeLower.email) ∧
    register_user caseStore janeLower "h2" true =
      (.ok ⟨"User registered successfully", janeLower.email⟩,
       { caseStore with users := caseStore.users ++ [newUserRow caseStore janeLower "h2"] }) :=
  ⟨by decide, C5_case_sensitive_uniqueness caseStore janeLower "h2" (by decide)⟩

/-- C6: a login that fails because no account has the email and a login
that fails because the password does not verify against the stored
hash produce the identical 401 response "Invalid email or password" —
the two runs are indistinguishable to the caller. -/
theorem C6_login_indistinguishable (s1 s2 : Store) (u1 u2 : UserLogin)
    (d1 d2 : String → String → Bool) (r : UserRow)
    (h1 : ∀ q ∈ s1.users, q.email ≠ u1.email)
    (h2 : (s2.users.filter (fun q => q.email == u2.email)).head? = some r)
    (hv : verify_password d2 u2.password r.password_hash = .ok false) :
    login_user s1 u1 d1 = .error 401 "Invalid email or password" ∧
    login_user s2 u2 d2 = .error 401 "Invalid email or password" ∧
    login_user s1 u1 d1 = login_user s2 u2 d2 := by
  have hnil := usersFilter_eq_nil s1.users u1.email h1
  have e1 : login_user s1 u1 d1 = .error 401 "Invalid email or password" := by
    simp [login_user, loginBody, hnil, loginBoundary]
  obtain ⟨t, ht⟩ := filter_head_cons h2
  have e2 : login_user s2 u2 d2 = .error 401 "Invalid email or password" := by
    simp [login_user, loginBody, ht, hv, loginBoundary]
  exact ⟨e1, e2, e1.trans e2.symm⟩

/-- Witness for C6: a login for an unknown email and a login for
`janeGoodRow`'s email with a non-matching password both yield exactly
the 401 "Invalid email or password". -/
theorem C6_witness :
    (∀ q ∈ emptyStore.users, q.email ≠ "bob@x.com") ∧
    (authStore.users.filter (fun q => q.email == "jane@x.com")).head? = some janeGoodRow ∧
    verify_password (fun _ _ => false) "wrong" janeGoodRow.password_hash = .ok false ∧
    (login_user emptyStore ⟨"bob@x.com", "pw"⟩ (fun _ _ => false) =
        .error 401 "Invalid email or password" ∧
     login_user authStore ⟨"jane@x.com", "wrong"⟩ (fun _ _ => false) =
        .error 401 "Invalid email or password" ∧
     login_user emptyStore ⟨"bob@x.com", "pw"⟩ (fun _ _ => false) =
        login_user authStore ⟨"jane@x.com", "wrong"⟩ (fun _ _ => false)) :=
  ⟨by decide, by decide, rfl,
   C6_login_indistinguishable emptyStore authStore ⟨"bob@x.com", "pw"⟩
     ⟨"jane@x.com", "wrong"⟩ (fun _ _ => false) (fun _ _ => false) janeGoodRow
     (by decide) (by decide) rfl⟩

/-- C7: if the combined date-time string does not parse under
`%Y-%m-%d %H:%M`, `book` fails with the 400 "Invalid date or time
format" — the result does not depend on the store contents, the
calendar outcome or the insert outcome (the check precedes every store
query and calendar call), and no appointment row is inserted. -/
theorem C7_invalid_format_rejected (store : Store) (appt : AppointmentCreate)
    (gid : Option String) (insertOk : Bool)
    (h : strptimeYmdHM (combinedDateTime appt) = none) :
    book_appointment store appt gid insertOk =
      (.error 400 "Invalid date or time format", store) := by
  simp [book_appointment, bookBody, h, bookBoundary]

/-- Witness for C7: `appointment_time = "25:99"` does not parse, and
booking it fails with the 400 regardless of the conflicting row in the
store. -/
theorem C7_witness :
    strptimeYmdHM (combinedDateTime badAppt) = none ∧
    book_appointment demoStore badAppt (some "evt") false =
      (.error 400 "Invalid date or time format", demoStore) :=
  ⟨by decide,
   C7_invalid_format_rejected demoStore badAppt (some "evt") false (by decide)⟩

/-- Counterexample to C9: a login whose body raises an exception
outside the designated kinds (the bcrypt `ValueError` over a malformed
stored hash) is answered with a 500 whose detail is exactly the
internal exception message `Invalid salt` — not a generic, user-safe
message. -/
theorem C9_counterexample :
    loginBody badHashStore ⟨"jane@x.com", "hunter2"⟩ (fun _ _ => false) =
      .error (.valueError "Invalid salt") ∧
    login_user badHashStore ⟨"jane@x.com", "hunter2"⟩ (fun _ _ => false) =
      .error 500 "Invalid salt" ∧
    "Invalid salt" ≠ "Internal server error" :=
  ⟨rfl, by decide, by decide⟩

/-- C9 (amended): all three handlers map an exception outside the
designated kinds to HTTP 500, but only `book_appointment` masks it
behind the generic "Internal server error" — `register_user` and
`login_user` surface `str(e)` itself as the detail. -/
theorem C9_boundary_surfaces_detail (m : String) :
    (registerBoundary (.error (.otherError m)) : HandlerResult RegisterResponse) =
      .error 500 m ∧
    (loginBoundary (.error (.otherError m)) : HandlerResult LoginResponse) =
      .error 500 m ∧
    (bookBoundary (.error (.otherError m)) : HandlerResult BookResponse) =
      .error 500 "Internal server error" :=
  ⟨rfl, rfl, rfl⟩

/-- C10: the conflict check and the persisted key compare the date and
time as raw strings while the parser accepts several spellings of one
instant, so two booking requests that parse to the same `DateTimeVal`
but differ as strings do not conflict: booked in sequence, both succeed
and both rows are inserted for that instant. -/
theorem C10_distinct_spellings_double_book (store : Store)
    (a1 a2 : AppointmentCreate) (g1 g2 : Option String) (dt : DateTimeVal)
    (hp1 : strptimeYmdHM (combinedDateTime a1) = some dt)
    (hp2 : strptimeYmdHM (combinedDateTime a2) = some dt)
    (hdiff : a1.appointment_date ≠ a2.appointment_date ∨
             a1.appointment_time ≠ a2.appointment_time)
    (hc1 : ∀ r ∈ store.appointments, isConflicting a1 r = false)
    (hc2 : ∀ r ∈ store.appointments, isConflicting a2 r = false) :
    book_appointment store a1 g1 true =
      (.ok ⟨"Appointment booked successfully", eventLink g1⟩,
       { store with appointments := store.appointments ++ [mkApptRow a1 g1] }) ∧
    book_appointment
        { store with appointments := store.appointments ++ [mkApptRow a1 g1] }
        a2 g2 true =
      (.ok ⟨"Appointment booked successfully", eventLink g2⟩,
       { store with
          appointments := (store.appointments ++ [mkApptRow a1 g1]) ++ [mkApptRow a2 g2] }) := by
  have hrow : isConflicting a2 (mkApptRow a1 g1) = false := by
    cases hdiff with
    | inl h => simp [isConflicting, mkApptRow]; intro hd; exact absurd hd h
    | inr h =>
      simp [isConflicting, mkApptRow]
      intro _ ht
      exact absurd ht h
  have hc2' : ∀ r ∈ store.appointments ++ [mkApptRow a1 g1],
      isConflicting a2 r = false := by
    intro r hr
    rcases List.mem_append.mp hr with hmem | hmem
    · exact hc2 r hmem
    · have : r = mkApptRow a1 g1 := by simpa using hmem
      rw [this]
      exact hrow
  refine ⟨book_success store a1 g1 dt hp1 (conflictRows_eq_nil store a1 hc1), ?_⟩
  exact book_success _ a2 g2 dt hp2
    (conflictRows_eq_nil { store with appointments := store.appointments ++ [mkApptRow a1 g1] } a2 hc2')

/-- Witness for C10: `2026-03-10` and `2026-3-10` both parse to the
same day; booking `10:00` under the first spelling and then under the
second succeeds twice, leaving two rows for the same instant. -/
theorem C10_witness :
    slotAppt.appointment_date ≠ unpaddedAppt.appointment_date ∧
    strptimeYmdHM (combinedDateTime slotAppt) = some ⟨2026, 3, 10, 10, 0⟩ ∧
    strptimeYmdHM (combinedDateTime unpaddedAppt) = some ⟨2026, 3, 10, 10, 0⟩ ∧
    (book_appointment emptyStore slotAppt none true =
      (.ok ⟨"Appointment booked successfully", eventLink none⟩,
       { emptyStore with
          appointments := emptyStore.appointments ++ [mkApptRow slotAppt none] }) ∧
     book_appointment
        { emptyStore with
           appointments := emptyStore.appointments ++ [mkApptRow slotAppt none] }
        unpaddedAppt none true =
      (.ok ⟨"Appointment booked successfully", eventLink none⟩,
       { emptyStore with
          appointments :=
            (emptyStore.appointments ++ [mkApptRow slotAppt none]) ++
              [mkApptRow unpaddedAppt none] })) :=
  ⟨by decide, by decide, by decide,
   C10_distinct_spellings_double_book emptyStore slotAppt unpaddedAppt none none
     ⟨2026, 3, 10, 10, 0⟩ (by decide) (by decide) (Or.inl (by decide))
     (by intro r hr; simp [emptyStore] at hr)
     (by intro r hr; simp [emptyStore] at hr)⟩

end Dentist
